import Mathlib

/-!
Shallow embedding of `src/gas_alarm_notifier.py`: the alarm edge-detection
state machine (`check_and_alert`), the notification dispatcher (`notify`),
and the two channel senders (`send_twilio`, `send_email_sms`).

Modelling conventions:
* `datetime` timestamps are `Nat`; the sentinel `datetime.min` is `0`, and
  `now + timedelta(seconds=I)` is `now + I`.  Only order and addition of
  timestamps matter to the code, so this abstraction is exact.
* Network calls that may raise (the Twilio `messages.create` call, the SMTP
  submission inside `_send`) are parameters of type `... → Except String Unit`;
  the Python `try/except` blocks become `match` on that `Except`.
* Each model function additionally returns the trace of external effects it
  performed (messages handed to the network), so "no network traffic was
  attempted" is the statement that the trace is `[]`.
-/

namespace GasAlarm

/-- The kind of a notification event, distinguished in the source by which
template the `notify` call at the edge receives (`ALARM_MSG` vs `CLEAR_MSG`). -/
inductive EventKind where
  | AlarmRaised
  | AlarmCleared
  deriving DecidableEq, Repr

/-- A notification event produced by `check_and_alert`: its kind, the template
text passed to `notify`, and the boolean result the dispatcher returned
(`false` means the event was dropped after all channels failed). -/
structure Event where
  kind : EventKind
  template : String
  delivered : Bool
  deriving DecidableEq, Repr

/-- The mutable globals of the main loop: `last_alarm_sent`, `cooldown_until`
and `last_state` (lines 145-147 of the source). -/
structure SysState where
  last_alarm_sent : Nat
  cooldown_until : Nat
  last_state : Bool
  deriving DecidableEq, Repr

/-- The configuration the state machine reads: `MIN_INTERVAL_S`, `SEND_CLEAR`
and the two message templates. -/
structure Config where
  MIN_INTERVAL_S : Nat
  SEND_CLEAR : Bool
  ALARM_MSG : String
  CLEAR_MSG : String
  deriving Repr

/-- Embedding of `check_and_alert` (source lines 150-173).  `state` is the
current debounced reading (`alarm_asserted()`), `now` the wall-clock time, and
`notifyFn` abstracts the `notify` dispatcher exactly as the source calls it
(a `String → Bool` whose result the state machine ignores).  Returns the
updated globals and the list of notification events dispatched. -/
def check_and_alert (cfg : Config) (notifyFn : String → Bool)
    (s : SysState) (now : Nat) (state : Bool) : SysState × List Event :=
  if state = s.last_state then
    (s, [])
  else if state then
    -- NORMAL -> ALARM edge
    if s.cooldown_until ≤ now then
      let ok := notifyFn cfg.ALARM_MSG
      ({ last_alarm_sent := now
         cooldown_until := now + cfg.MIN_INTERVAL_S
         last_state := state },
       [⟨.AlarmRaised, cfg.ALARM_MSG, ok⟩])
    else
      -- alarm asserted but in cooldown; no alert sent
      ({ s with last_state := state }, [])
  else
    -- ALARM -> NORMAL edge
    if cfg.SEND_CLEAR then
      let ok := notifyFn cfg.CLEAR_MSG
      ({ s with last_state := state, cooldown_until := 0 },
       [⟨.AlarmCleared, cfg.CLEAR_MSG, ok⟩])
    else
      ({ s with last_state := state, cooldown_until := 0 }, [])

/-- Configuration read by `send_twilio` (source lines 15-24). -/
structure TwilioCfg where
  TWILIO_ENABLED : Bool
  TWILIO_SID : String
  TWILIO_TOKEN : String
  TWILIO_FROM : String
  PHONE_LIST : List String
  deriving Repr

/-- The `for num in PHONE_LIST` loop of `send_twilio` (source lines 73-74):
calls `api` on each number in order, stopping at the first raised exception.
Returns the outcome of the loop together with the numbers actually handed to the
network client. -/
def twilioLoop (api : String → Except String Unit) :
    List String → Except String Unit × List String
  | [] => (Except.ok (), [])
  | n :: rest =>
    match api n with
    | Except.error e => (Except.error e, [n])
    | Except.ok _ =>
      let r := twilioLoop api rest
      (r.1, n :: r.2)

/-- Embedding of `send_twilio` (source lines 66-79).  `api num frm body` is the
possibly-raising `client.messages.create(to=num, from_=frm, body=body)` call;
the Python `try/except` is the `match` on the loop result.  The second
component is the list of phone numbers for which a network call was attempted,
so `[]` means no network traffic happened. -/
def send_twilio (cfg : TwilioCfg)
    (api : String → String → String → Except String Unit)
    (text : String) : Bool × List String :=
  if !cfg.TWILIO_ENABLED then (false, [])
  else if cfg.TWILIO_SID = "" ∨ cfg.TWILIO_TOKEN = "" ∨ cfg.TWILIO_FROM = ""
      ∨ cfg.PHONE_LIST = [] then
    (false, [])
  else
    match twilioLoop (fun num => api num cfg.TWILIO_FROM text) cfg.PHONE_LIST with
    | (Except.error _, attempted) => (false, attempted)
    | (Except.ok _, attempted) => (true, attempted)

/-- Configuration read by `send_email_sms` (source lines 26-32). -/
structure EmailCfg where
  SMTP_HOST : String
  SMS_GATEWAY_LIST : List String
  EMAIL_TO_LIST : List String
  FROM_EMAIL : String
  deriving Repr

/-- The Python `str.lower()` method, characterwise ASCII case mapping (the email
addresses this program handles are ASCII). -/
def pyLower (s : String) : String := ⟨s.data.map Char.toLower⟩

/-- The Python slice `s[:n]`: the first `n` characters of the string. -/
def pyTake (s : String) (n : Nat) : String := ⟨s.data.take n⟩

/-- The bucket predicate of source lines 85-86: `r.lower().endswith("@vtext.com")`. -/
def isVtext (r : String) : Bool := "@vtext.com".data.isSuffixOf (pyLower r).data

/-- One bucket actually submitted to the SMTP server: its kind tag (the string
the source appends to `sent_lists`), the recipient list, and the body sent. -/
structure SentBucket where
  kind : String
  recipients : List String
  body : String
  deriving DecidableEq, Repr

/-- Embedding of `send_email_sms` (source lines 81-129).  `smtpSend to body`
models the whole `_send(to_list, body)` network submission, which may raise;
any raise aborts the function through the outer `except`, returning `false`.
The second component is the `sent_lists` trace: the buckets whose submission
completed before the function returned. -/
def send_email_sms (cfg : EmailCfg)
    (smtpSend : List String → String → Except String Unit)
    (text : String) : Bool × List SentBucket :=
  if cfg.SMTP_HOST = "" ∨ (cfg.SMS_GATEWAY_LIST = [] ∧ cfg.EMAIL_TO_LIST = []) then
    (false, [])
  else
    let sms := cfg.SMS_GATEWAY_LIST.filter isVtext
    let mms := cfg.SMS_GATEWAY_LIST.filter fun r => !(isVtext r)
    let cc := cfg.EMAIL_TO_LIST
    match (if sms.isEmpty then Except.ok () else smtpSend sms (pyTake text 160)) with
    | Except.error _ => (false, [])
    | Except.ok _ =>
      let t1 : List SentBucket := if sms.isEmpty then [] else [⟨"sms", sms, pyTake text 160⟩]
      match (if mms.isEmpty then Except.ok () else smtpSend mms text) with
      | Except.error _ => (false, t1)
      | Except.ok _ =>
        let t2 := t1 ++ (if mms.isEmpty then [] else [⟨"mms", mms, text⟩])
        match (if cc.isEmpty then Except.ok () else smtpSend cc text) with
        | Except.error _ => (false, t2)
        | Except.ok _ =>
          let t3 := t2 ++ (if cc.isEmpty then [] else [⟨"email", cc, text⟩])
          if t3.isEmpty then (false, []) else (true, t3)

/-- The two notification channels, in the fixed priority order `notify` tries
them. -/
inductive Channel where
  | twilio
  | emailRelay
  deriving DecidableEq, Repr

/-- A local wall-clock time, as consumed by `datetime.now().strftime(...)`. -/
structure LocalTime where
  year : Nat
  month : Nat
  day : Nat
  hour : Nat
  minute : Nat
  second : Nat
  deriving Repr

/-- Zero-padding to two digits, as the strftime fields %m %d %H %M %S do. -/
def pad2 (n : Nat) : String := if n < 10 then "0" ++ toString n else toString n

/-- Embedding of `datetime.now().strftime("%Y-%m-%d %H:%M:%S")` (source
line 133). -/
def strftimeStamp (t : LocalTime) : String :=
  toString t.year ++ "-" ++ pad2 t.month ++ "-" ++ pad2 t.day ++ " " ++
    pad2 t.hour ++ ":" ++ pad2 t.minute ++ ":" ++ pad2 t.second

/-- Result of one `notify` call: the boolean it returns, the channels it
attempted with the exact payload handed to each, and whether the
"All notification methods failed." error was logged. -/
structure NotifyResult where
  ok : Bool
  attempts : List (Channel × String)
  allFailedLogged : Bool
  deriving Repr

/-- Embedding of `notify` (source lines 132-140): renders the payload from the
site label, the template text and the timestamp, tries Twilio, falls back to
the email relay only when Twilio reported failure, and logs the all-failed
error when both did.  Total in `api`/`smtpSend`: every exception of the
collaborators is absorbed inside the two senders, so no exception escapes. -/
def notify (twCfg : TwilioCfg) (emCfg : EmailCfg)
    (api : String → String → String → Except String Unit)
    (smtpSend : List String → String → Except String Unit)
    (SITE_NAME : String) (t : LocalTime) (text : String) : NotifyResult :=
  let stamp := strftimeStamp t
  let payload := "[" ++ SITE_NAME ++ "] " ++ text ++ " @ " ++ stamp
  let r1 := send_twilio twCfg api payload
  if r1.1 then
    ⟨true, [(Channel.twilio, payload)], false⟩
  else
    let r2 := send_email_sms emCfg smtpSend payload
    ⟨r2.1, [(Channel.twilio, payload), (Channel.emailRelay, payload)], !r2.1⟩

/-- C1: from a Normal state, an Asserted reading at `t1` past the cooldown
deadline dispatches exactly one AlarmRaised notification and sets the
deadline to `t1 + MIN_INTERVAL_S`; at `t1` before the deadline it dispatches
nothing while still recording the Asserted state. -/
theorem C1_cooldown_gate (cfg : Config) (notifyFn : String → Bool)
    (s : SysState) (t1 : Nat) (hNormal : s.last_state = false) :
    (s.cooldown_until ≤ t1 →
      (check_and_alert cfg notifyFn s t1 true).2.map (fun e => (e.kind, e.template))
          = [(EventKind.AlarmRaised, cfg.ALARM_MSG)] ∧
      (check_and_alert cfg notifyFn s t1 true).1.cooldown_until
          = t1 + cfg.MIN_INTERVAL_S) ∧
    (t1 < s.cooldown_until →
      (check_and_alert cfg notifyFn s t1 true).2 = [] ∧
      (check_and_alert cfg notifyFn s t1 true).1.last_state = true) := by
  constructor
  · intro h
    simp [check_and_alert, hNormal, h]
  · intro h
    simp [check_and_alert, hNormal, Nat.not_le.mpr h]

/-- Witness for C1 at a concrete state: deadline 100, reading Asserted at
t1 = 200 (past) and at t1 = 50 (within cooldown). -/
theorem C1_cooldown_gate_witness :
    (check_and_alert ⟨300, true, "A", "C"⟩ (fun _ => false)
        ⟨0, 100, false⟩ 200 true).1.cooldown_until = 500 ∧
    (check_and_alert ⟨300, true, "A", "C"⟩ (fun _ => false)
        ⟨0, 100, false⟩ 50 true).2 = [] :=
  ⟨((C1_cooldown_gate ⟨300, true, "A", "C"⟩ (fun _ => false)
      ⟨0, 100, false⟩ 200 rfl).1 (by decide)).2,
   ((C1_cooldown_gate ⟨300, true, "A", "C"⟩ (fun _ => false)
      ⟨0, 100, false⟩ 50 rfl).2 (by decide)).1⟩

/-- C2: from an Asserted state, a Normal reading resets the cooldown deadline
to the sentinel `0` whatever its prior value, so the very next
Normal→Asserted edge, at any later time, dispatches an AlarmRaised
notification. -/
theorem C2_clear_resets_cooldown (cfg : Config) (notifyFn : String → Bool)
    (s : SysState) (now : Nat) (hA : s.last_state = true) :
    (check_and_alert cfg notifyFn s now false).1.cooldown_until = 0 ∧
    ∀ t1 : Nat,
      ((check_and_alert cfg notifyFn
          (check_and_alert cfg notifyFn s now false).1 t1 true).2).map
            (fun e => (e.kind, e.template))
        = [(EventKind.AlarmRaised, cfg.ALARM_MSG)] := by
  by_cases hc : cfg.SEND_CLEAR <;>
    simp [check_and_alert, hA, hc]

/-- Witness for C2: a huge prior deadline is wiped by the clear and the
re-assertion one tick later dispatches. -/
theorem C2_clear_resets_cooldown_witness :
    (check_and_alert ⟨300, true, "A", "C"⟩ (fun _ => true)
        ⟨0, 1000000, true⟩ 7 false).1.cooldown_until = 0 ∧
    ∀ t1 : Nat,
      ((check_and_alert ⟨300, true, "A", "C"⟩ (fun _ => true)
          (check_and_alert ⟨300, true, "A", "C"⟩ (fun _ => true)
            ⟨0, 1000000, true⟩ 7 false).1 t1 true).2).map
            (fun e => (e.kind, e.template))
        = [(EventKind.AlarmRaised, "A")] :=
  C2_clear_resets_cooldown ⟨300, true, "A", "C"⟩ (fun _ => true)
    ⟨0, 1000000, true⟩ 7 rfl

/-- C3: a reading equal to the recorded state is a strict no-op, and after any
call the recorded state equals the reading, so every repeat of the same
reading (at any later time) changes nothing and dispatches nothing. -/
theorem C3_idempotent (cfg : Config) (notifyFn : String → Bool)
    (s : SysState) (now : Nat) (r : Bool) :
    (r = s.last_state → check_and_alert cfg notifyFn s now r = (s, [])) ∧
    (check_and_alert cfg notifyFn s now r).1.last_state = r ∧
    ∀ now2 : Nat,
      check_and_alert cfg notifyFn (check_and_alert cfg notifyFn s now r).1 now2 r
        = ((check_and_alert cfg notifyFn s now r).1, []) := by
  refine ⟨fun h => by simp [check_and_alert, h], ?_, ?_⟩
  · unfold check_and_alert
    by_cases h : r = s.last_state
    · simp [h]
    · cases r <;> simp [h] <;> split <;> simp
  · intro now2
    have hls : (check_and_alert cfg notifyFn s now r).1.last_state = r := by
      unfold check_and_alert
      by_cases h : r = s.last_state
      · simp [h]
      · cases r <;> simp [h] <;> split <;> simp
    have hnoop : ∀ s' : SysState, r = s'.last_state →
        check_and_alert cfg notifyFn s' now2 r = (s', []) := by
      intro s' h
      simp [check_and_alert, h]
    exact hnoop _ hls.symm

/-- Witness for C3: repeated Asserted readings after a raise are no-ops. -/
theorem C3_idempotent_witness :
    check_and_alert ⟨300, true, "A", "C"⟩ (fun _ => true)
        (check_and_alert ⟨300, true, "A", "C"⟩ (fun _ => true)
          ⟨0, 0, false⟩ 10 true).1 11 true
      = ((check_and_alert ⟨300, true, "A", "C"⟩ (fun _ => true)
          ⟨0, 0, false⟩ 10 true).1, []) :=
  (C3_idempotent ⟨300, true, "A", "C"⟩ (fun _ => true) ⟨0, 0, false⟩ 10 true).2.2 11

/-- C6: with clear notifications disabled, an Asserted→Normal edge records the
Normal state but dispatches no event. -/
theorem C6_clear_suppressed (cfg : Config) (notifyFn : String → Bool)
    (s : SysState) (now : Nat)
    (hA : s.last_state = true) (hNC : cfg.SEND_CLEAR = false) :
    (check_and_alert cfg notifyFn s now false).1.last_state = false ∧
    (check_and_alert cfg notifyFn s now false).2 = [] := by
  simp [check_and_alert, hA, hNC]

/-- Witness for C6 at a concrete Asserted state with SEND_CLEAR off. -/
theorem C6_clear_suppressed_witness :
    (check_and_alert ⟨300, false, "A", "C"⟩ (fun _ => true)
        ⟨5, 400, true⟩ 20 false).1.last_state = false ∧
    (check_and_alert ⟨300, false, "A", "C"⟩ (fun _ => true)
        ⟨5, 400, true⟩ 20 false).2 = [] :=
  C6_clear_suppressed ⟨300, false, "A", "C"⟩ (fun _ => true) ⟨5, 400, true⟩ 20 rfl rfl

/-- C9: on a raising edge that passes the cooldown check the deadline becomes
`now + MIN_INTERVAL_S` for every dispatcher behaviour — in particular when
every channel failed (`notifyFn _ = false`, the event is dispatched but
dropped) — and any Normal-state re-assertion carrying that deadline at a
time before it dispatches nothing. -/
theorem C9_cooldown_despite_failure (cfg : Config) (notifyFn : String → Bool)
    (s : SysState) (now : Nat)
    (hN : s.last_state = false) (hCd : s.cooldown_until ≤ now) :
    (check_and_alert cfg notifyFn s now true).1.cooldown_until
        = now + cfg.MIN_INTERVAL_S ∧
    (check_and_alert cfg notifyFn s now true).2.map (fun e => (e.kind, e.delivered))
        = [(EventKind.AlarmRaised, notifyFn cfg.ALARM_MSG)] ∧
    ∀ (s2 : SysState) (t1 : Nat), s2.last_state = false →
      s2.cooldown_until = now + cfg.MIN_INTERVAL_S → t1 < now + cfg.MIN_INTERVAL_S →
      (check_and_alert cfg notifyFn s2 t1 true).2 = [] := by
  refine ⟨by simp [check_and_alert, hN, hCd], by simp [check_and_alert, hN, hCd], ?_⟩
  intro s2 t1 h2 hcd2 hlt
  simp [check_and_alert, h2, hcd2, Nat.not_le.mpr hlt]

/-- Witness for C9 with an all-channels-fail dispatcher: the dropped event
still opens a 300-second window that suppresses a re-assertion at 250. -/
theorem C9_cooldown_despite_failure_witness :
    (check_and_alert ⟨300, true, "A", "C"⟩ (fun _ => false)
        ⟨0, 0, false⟩ 10 true).1.cooldown_until = 310 ∧
    (check_and_alert ⟨300, true, "A", "C"⟩ (fun _ => false)
        ⟨7, 310, false⟩ 250 true).2 = [] :=
  ⟨(C9_cooldown_despite_failure ⟨300, true, "A", "C"⟩ (fun _ => false)
      ⟨0, 0, false⟩ 10 rfl (by decide)).1,
   (C9_cooldown_despite_failure ⟨300, true, "A", "C"⟩ (fun _ => false)
      ⟨0, 0, false⟩ 10 rfl (by decide)).2.2 ⟨7, 310, false⟩ 250 rfl rfl (by decide)⟩

/-- C10: a raising edge suppressed by the cooldown changes the recorded state
only: the deadline and the last-sent timestamp are untouched and nothing is
dispatched. -/
theorem C10_suppressed_frame (cfg : Config) (notifyFn : String → Bool)
    (s : SysState) (now : Nat)
    (hN : s.last_state = false) (hCd : now < s.cooldown_until) :
    check_and_alert cfg notifyFn s now true = ({ s with last_state := true }, []) := by
  simp [check_and_alert, hN, Nat.not_le.mpr hCd]

/-- Witness for C10 at a concrete suppressed raise. -/
theorem C10_suppressed_frame_witness :
    check_and_alert ⟨300, true, "A", "C"⟩ (fun _ => true)
        ⟨9, 100, false⟩ 50 true = (⟨9, 100, true⟩, []) :=
  C10_suppressed_frame ⟨300, true, "A", "C"⟩ (fun _ => true) ⟨9, 100, false⟩ 50 rfl
    (by decide)

/-- C7: the Twilio channel reports failure without touching the network when
it is disabled, any credential is missing, or the recipient list is empty. -/
theorem C7_twilio_guard (cfg : TwilioCfg)
    (api : String → String → String → Except String Unit) (text : String)
    (h : cfg.TWILIO_ENABLED = false ∨ cfg.TWILIO_SID = "" ∨ cfg.TWILIO_TOKEN = ""
        ∨ cfg.TWILIO_FROM = "" ∨ cfg.PHONE_LIST = []) :
    send_twilio cfg api text = (false, []) := by
  unfold send_twilio
  cases he : cfg.TWILIO_ENABLED <;> simp [he]
  rcases h with h | h | h | h | h
  · exact absurd he (by simp [h])
  all_goals simp [h]

/-- Witness for C7: a disabled channel with full credentials still refuses and
performs no send. -/
theorem C7_twilio_guard_witness :
    send_twilio ⟨false, "sid", "tok", "+15550000000", ["+15551111111"]⟩
        (fun _ _ _ => Except.ok ()) "hello" = (false, []) :=
  C7_twilio_guard ⟨false, "sid", "tok", "+15550000000", ["+15551111111"]⟩
    (fun _ _ _ => Except.ok ()) "hello" (Or.inl rfl)

/-- C4: `notify` tries Twilio first and the email relay only when Twilio
reported failure, stopping at the first success; it returns true exactly when
some attempted channel succeeded, and logs the all-methods-failed error
exactly when it returns false.  Both channel models absorb every collaborator
exception into a boolean, so `notify` is a total function: no exception
escapes. -/
theorem C4_dispatch_fallback (twCfg : TwilioCfg) (emCfg : EmailCfg)
    (api : String → String → String → Except String Unit)
    (smtpSend : List String → String → Except String Unit)
    (site : String) (t : LocalTime) (text : String) :
    ((notify twCfg emCfg api smtpSend site t text).attempts.map Prod.fst
      = if (send_twilio twCfg api
              ("[" ++ site ++ "] " ++ text ++ " @ " ++ strftimeStamp t)).1
        then [Channel.twilio]
        else [Channel.twilio, Channel.emailRelay]) ∧
    ((notify twCfg emCfg api smtpSend site t text).ok
      = ((send_twilio twCfg api
            ("[" ++ site ++ "] " ++ text ++ " @ " ++ strftimeStamp t)).1
         || (send_email_sms emCfg smtpSend
              ("[" ++ site ++ "] " ++ text ++ " @ " ++ strftimeStamp t)).1)) ∧
    ((notify twCfg emCfg api smtpSend site t text).allFailedLogged
      = !(notify twCfg emCfg api smtpSend site t text).ok) := by
  unfold notify
  cases h : (send_twilio twCfg api
      ("[" ++ site ++ "] " ++ text ++ " @ " ++ strftimeStamp t)).1 <;>
    simp [h]

/-- C8: every channel attempt receives exactly the rendered payload: the site
label in square brackets, a space, the template text, the separator, and the
"YYYY-MM-DD HH:MM:SS" local timestamp. -/
theorem C8_payload_format (twCfg : TwilioCfg) (emCfg : EmailCfg)
    (api : String → String → String → Except String Unit)
    (smtpSend : List String → String → Except String Unit)
    (site : String) (t : LocalTime) (text : String) :
    ∀ a ∈ (notify twCfg emCfg api smtpSend site t text).attempts,
      a.2 = "[" ++ site ++ "] " ++ text ++ " @ " ++ strftimeStamp t := by
  intro a ha
  unfold notify at ha
  dsimp only at ha
  split at ha <;>
    simp only [List.mem_cons, List.mem_singleton, List.not_mem_nil, or_false] at ha
  · subst ha; rfl
  · rcases ha with ha | ha <;> (subst ha; rfl)

/-- Witness for C8: the payload handed to the Twilio attempt at a concrete
time is the rendered string. -/
theorem C8_payload_format_witness :
    ((Channel.twilio, "[S] M @ 2026-01-02 03:04:05") ∈
      (notify ⟨false, "", "", "", []⟩ ⟨"", [], [], ""⟩
        (fun _ _ _ => Except.ok ()) (fun _ _ => Except.ok ())
        "S" ⟨2026, 1, 2, 3, 4, 5⟩ "M").attempts) ∧
    ("[S] M @ 2026-01-02 03:04:05" : String)
      = "[" ++ "S" ++ "] " ++ "M" ++ " @ " ++ strftimeStamp ⟨2026, 1, 2, 3, 4, 5⟩ := by
  have hm : (Channel.twilio, ("[S] M @ 2026-01-02 03:04:05" : String)) ∈
      (notify ⟨false, "", "", "", []⟩ ⟨"", [], [], ""⟩
        (fun _ _ _ => Except.ok ()) (fun _ _ => Except.ok ())
        "S" ⟨2026, 1, 2, 3, 4, 5⟩ "M").attempts := by decide
  exact ⟨hm, C8_payload_format ⟨false, "", "", "", []⟩ ⟨"", [], [], ""⟩
    (fun _ _ _ => Except.ok ()) (fun _ _ => Except.ok ())
    "S" ⟨2026, 1, 2, 3, 4, 5⟩ "M" (Channel.twilio, "[S] M @ 2026-01-02 03:04:05") hm⟩

/-- A nonempty list cannot have both its positive and negative filters empty. -/
theorem filter_partition_ne_nil {l : List String} (p : String → Bool) (hl : l ≠ []) :
    ¬(l.filter p = [] ∧ l.filter (fun r => !(p r)) = []) := by
  rintro ⟨h1, h2⟩
  rcases List.exists_mem_of_ne_nil l hl with ⟨x, hx⟩
  cases hpx : p x
  · have : x ∈ l.filter (fun r => !(p r)) := List.mem_filter.mpr ⟨hx, by simp [hpx]⟩
    simp [h2] at this
  · have : x ∈ l.filter p := List.mem_filter.mpr ⟨hx, hpx⟩
    simp [h1] at this

/-- C5 fails as stated: with one SMS-gateway recipient and one plain email
recipient, a server that accepts the gateway submission but raises on the
plain-email submission leaves the short-form bucket sent (`sent_lists`
nonempty) yet `send_email_sms` returns failure. -/
theorem C5_counterexample :
    (send_email_sms ⟨"smtp.example.com", ["a@vtext.com"], ["b@example.com"], "f@e.com"⟩
        (fun dst _ => if dst = ["a@vtext.com"] then Except.ok () else Except.error "se")
        "msg")
      = (false, [⟨"sms", ["a@vtext.com"], "msg"⟩]) := by decide

/-- Membership in a conditionally-empty singleton forces equality with its
element. -/
theorem mem_ite_singleton {α : Type} {b x : α} {c : Prop} [Decidable c]
    (hb : b ∈ (if c then ([] : List α) else [x])) : b = x := by
  split_ifs at hb
  · cases hb
  · exact List.mem_singleton.mp hb

/-- Case analysis on a `send_email_sms` run: success implies a nonempty
`sent_lists` trace, and every short-form bucket in the trace carries the
160-character truncation. -/
theorem send_email_sms_cases (cfg : EmailCfg)
    (smtpSend : List String → String → Except String Unit) (text : String)
    (ok : Bool) (tr : List SentBucket)
    (h : send_email_sms cfg smtpSend text = (ok, tr)) :
    (ok = true → tr ≠ []) ∧
    (∀ b ∈ tr, b.kind = "sms" → b.body = pyTake text 160) := by
  unfold send_email_sms at h
  split at h
  · injection h with hok htr
    subst hok; subst htr
    exact ⟨fun hok => Bool.noConfusion hok, by simp⟩
  · dsimp only at h
    split at h
    · injection h with hok htr
      subst hok; subst htr
      exact ⟨fun hok => Bool.noConfusion hok, by simp⟩
    · split at h
      · injection h with hok htr
        subst hok; subst htr
        refine ⟨fun hok => Bool.noConfusion hok, fun b hb hkind => ?_⟩
        rcases mem_ite_singleton hb with rfl
        rfl
      · split at h
        · injection h with hok htr
          subst hok; subst htr
          refine ⟨fun hok => Bool.noConfusion hok, fun b hb hkind => ?_⟩
          rcases List.mem_append.mp hb with hb | hb
          · rcases mem_ite_singleton hb with rfl
            rfl
          · rcases mem_ite_singleton hb with rfl
            simp at hkind
        · by_cases hE :
            (((if (cfg.SMS_GATEWAY_LIST.filter isVtext).isEmpty = true then []
                else [(⟨"sms", cfg.SMS_GATEWAY_LIST.filter isVtext,
                        pyTake text 160⟩ : SentBucket)])
              ++ (if (cfg.SMS_GATEWAY_LIST.filter (fun r => !(isVtext r))).isEmpty = true
                  then []
                else [(⟨"mms", cfg.SMS_GATEWAY_LIST.filter (fun r => !(isVtext r)),
                        text⟩ : SentBucket)])
              ++ (if cfg.EMAIL_TO_LIST.isEmpty = true then []
                else [(⟨"email", cfg.EMAIL_TO_LIST, text⟩ : SentBucket)])).isEmpty
              = true)
          · rw [if_pos hE] at h
            injection h with hok htr
            subst hok; subst htr
            exact ⟨fun hok => Bool.noConfusion hok, by simp⟩
          · rw [if_neg hE] at h
            injection h with hok htr
            subst hok; subst htr
            refine ⟨fun _ hnil => hE (List.isEmpty_iff.mpr hnil),
              fun b hb hkind => ?_⟩
            rcases List.mem_append.mp hb with hb | hb
            · rcases List.mem_append.mp hb with hb | hb
              · rcases mem_ite_singleton hb with rfl
                rfl
              · rcases mem_ite_singleton hb with rfl
                simp at hkind
            · rcases mem_ite_singleton hb with rfl
              simp at hkind

/-- C5 amended: with no recipients configured the function fails without any
send; success implies at least one bucket was sent; every short-form bucket
body is the text truncated to 160 characters; and when no submission raises,
a configured host plus at least one recipient guarantee success.  (As stated
the claim fails: an exception raised on a later bucket returns failure even
though an earlier bucket was already sent.) -/
theorem C5_email_buckets (cfg : EmailCfg)
    (smtpSend : List String → String → Except String Unit) (text : String) :
    (cfg.SMS_GATEWAY_LIST = [] ∧ cfg.EMAIL_TO_LIST = [] →
      send_email_sms cfg smtpSend text = (false, [])) ∧
    ((send_email_sms cfg smtpSend text).1 = true →
      (send_email_sms cfg smtpSend text).2 ≠ []) ∧
    (∀ b ∈ (send_email_sms cfg smtpSend text).2,
      b.kind = "sms" → b.body = pyTake text 160) ∧
    ((∀ dst body, smtpSend dst body = Except.ok ()) → cfg.SMTP_HOST ≠ "" →
      (cfg.SMS_GATEWAY_LIST ≠ [] ∨ cfg.EMAIL_TO_LIST ≠ []) →
      (send_email_sms cfg smtpSend text).1 = true) := by
  refine ⟨fun h => by simp [send_email_sms, h.1, h.2], ?_, ?_, ?_⟩
  · exact (send_email_sms_cases cfg smtpSend text _ _ Prod.mk.eta.symm).1
  · exact (send_email_sms_cases cfg smtpSend text _ _ Prod.mk.eta.symm).2
  · intro hall hhost hrec
    have hguard : ¬(cfg.SMTP_HOST = ""
        ∨ (cfg.SMS_GATEWAY_LIST = [] ∧ cfg.EMAIL_TO_LIST = [])) := by
      rcases hrec with h | h <;> rintro (hc | ⟨hc1, hc2⟩) <;> simp_all
    by_cases hsms : (cfg.SMS_GATEWAY_LIST.filter isVtext).isEmpty = true <;>
    by_cases hmms : (cfg.SMS_GATEWAY_LIST.filter (fun r => !(isVtext r))).isEmpty = true <;>
    by_cases hcc : cfg.EMAIL_TO_LIST.isEmpty = true <;>
    simp [send_email_sms, if_neg hguard, hsms, hmms, hcc, hall]
    exfalso
    rcases hrec with h | h
    · exact filter_partition_ne_nil isVtext h
        ⟨List.isEmpty_iff.mp hsms, List.isEmpty_iff.mp hmms⟩
    · exact h (List.isEmpty_iff.mp hcc)

/-- Witness for the amended C5 statement at concrete inputs: a lone email
recipient with an accepting server succeeds, and an sms-bucket body is the
160-character truncation. -/
theorem C5_email_buckets_witness :
    (send_email_sms ⟨"h.example.com", [], ["b@example.com"], "f"⟩
        (fun _ _ => Except.ok ()) "msg").1 = true :=
  (C5_email_buckets ⟨"h.example.com", [], ["b@example.com"], "f"⟩
      (fun _ _ => Except.ok ()) "msg").2.2.2
    (fun _ _ => rfl) (by decide) (Or.inr (by decide))

end GasAlarm
